import Mathlib

/-!
Shallow embedding of `tidepool_data_science_models/models/icgm_sensor_generator.py`.

Conventions of the embedding:
* Glucose values and all floating-point quantities are modelled as rationals (`ℚ`).
* The floating-point not-a-number value (`np.nan`) is modelled by `Option ℚ`
  (`none` = NaN); NaN propagation through arithmetic is `Option.map`.
* numpy's global random stream is modelled by a state `RngState = (seed, position)`;
  `np.random.seed` replaces the state, and standard-normal draws are an abstract
  function `gauss : seed → position → ℚ` threaded as an explicit parameter
  (numpy's generator is a fixed deterministic function of seed and position).
* `np.sin` is likewise an abstract parameter `sine : ℚ → ℚ`, and `np.pi` an
  abstract rational `piQ`; no theorem below depends on their actual values.
* Python exceptions are `Except String`; methods that mutate `self` in place and
  can raise after partial mutation return `state × Option String` instead.
-/

set_option maxRecDepth 20000

namespace ICGM

/-- One row of the per-sensor property table handed to `iCGMSensor.__init__`. -/
structure SensorProperties where
  initial_bias : ℚ
  phi_drift : ℚ
  bias_drift_range_start : ℚ
  bias_drift_range_end : ℚ
  bias_drift_oscillations : ℚ
  bias_norm_factor : ℚ
  noise_coefficient : ℚ
  delay : ℕ
  random_seed : ℕ
  bias_drift_type : String
  deriving DecidableEq

/-- The numpy global random stream: current seed and position in the stream. -/
abbrev RngState := ℕ × ℕ

/-- Model of `np.random.seed(seed)`: the previous stream state is discarded. -/
def npRandomSeed (_g : RngState) (seed : ℕ) : RngState := (seed, 0)

/-- Model of `np.random.normal(loc=0, scale, size)`: `size` draws from the
current stream, each `scale` times a standard-normal value `gauss seed pos`,
advancing the stream position. -/
def npNormalDraws (gauss : ℕ → ℕ → ℚ) (g : RngState) (scale : ℚ) (size : ℕ) :
    List ℚ × RngState :=
  ((List.range size).map (fun i => scale * gauss g.1 (g.2 + i)), (g.1, g.2 + size))

/-- `sys.float_info.epsilon` for IEEE-754 double precision. -/
def epsFloat : ℚ := 1 / 2 ^ 52

/-- Element `i` of `np.linspace(0, stop, num)`. -/
def npLinspaceVal (stop : ℚ) (num i : ℕ) : ℚ := stop * i / (num - 1)

/-- `np.interp(x, (xp0, xp1), (fp0, fp1))` for a two-point grid: clamps outside
`[xp0, xp1]` and interpolates linearly inside. -/
def npInterpTwoPoint (x xp0 xp1 fp0 fp1 : ℚ) : ℚ :=
  if x ≤ xp0 then fp0
  else if xp1 ≤ x then fp1
  else fp0 + (x - xp0) * (fp1 - fp0) / (xp1 - xp0)

/-- `288 * 10`, the hardcoded length of the precomputed noise and
drift-multiplier arrays in `calculate_sensor_bias_properties`. -/
def sensorLifetimeTicks : ℕ := 288 * 10

/-- The drift-multiplier array computed in the `bias_drift_type == "random"`
branch: `np.interp(np.sin(np.linspace(0, oscillations*pi, 2880) + phi_drift),
(-1, 1), (bias_drift_range_start, bias_drift_range_start))`.  Note that the
source passes `bias_drift_range_start` for BOTH interpolation endpoints. -/
def driftMultiplierRandom (sine : ℚ → ℚ) (piQ : ℚ) (p : SensorProperties) : List ℚ :=
  (List.range sensorLifetimeTicks).map (fun i =>
    npInterpTwoPoint
      (sine (npLinspaceVal (p.bias_drift_oscillations * piQ) sensorLifetimeTicks i + p.phi_drift))
      (-1) 1 p.bias_drift_range_start p.bias_drift_range_start)

/-- The drift multiplier assigned by `calculate_sensor_bias_properties`
depending on `bias_drift_type`; `none` models the attribute being left unset
for an unrecognized drift type. -/
def driftSpec (sine : ℚ → ℚ) (piQ : ℚ) (p : SensorProperties) : Option (List ℚ) :=
  if p.bias_drift_type = "random" then some (driftMultiplierRandom sine piQ p)
  else if p.bias_drift_type = "none" then some (List.replicate sensorLifetimeTicks 1)
  else none

/-- The per-sensor noise array: 2880 normal draws with
`scale = max(noise_coefficient, sys.float_info.epsilon)` from the stream right
after `np.random.seed(random_seed)`. -/
def sensorNoise (gauss : ℕ → ℕ → ℚ) (p : SensorProperties) : List ℚ :=
  (npNormalDraws gauss (npRandomSeed (0, 0) p.random_seed)
    (max p.noise_coefficient epsFloat) sensorLifetimeTicks).1

/-- `bias_factor = (bias_norm_factor + initial_bias) / max(bias_norm_factor, 1)`. -/
def biasFactorOf (p : SensorProperties) : ℚ :=
  (p.bias_norm_factor + p.initial_bias) / max p.bias_norm_factor 1

/-- Model of `iCGMSensor.calculate_sensor_bias_properties`: reseeds the global
stream from `random_seed`, draws the noise array, computes the bias factor and
the drift multiplier; raises `NotImplementedError` for `"linear"` drift. -/
def calculate_sensor_bias_properties (gauss : ℕ → ℕ → ℚ) (sine : ℚ → ℚ) (piQ : ℚ)
    (g : RngState) (p : SensorProperties) :
    Except String ((List ℚ × ℚ × Option (List ℚ)) × RngState) :=
  let g1 := npRandomSeed g p.random_seed
  let drawn := npNormalDraws gauss g1 (max p.noise_coefficient epsFloat) sensorLifetimeTicks
  if p.bias_drift_type = "linear" then Except.error "NotImplementedError"
  else Except.ok ((drawn.1, biasFactorOf p, driftSpec sine piQ p), drawn.2)

/-- The full state of one `iCGMSensor` object. -/
structure iCGMSensorState where
  sensor_life_days : ℤ
  time_index : ℤ
  sensor_datetime : Option ℤ
  true_bg_history : List ℚ
  sensor_bg_history : List (Option ℚ)
  datetime_history : List (Option ℤ)
  initial_bias : ℚ
  phi_drift : ℚ
  bias_drift_range_start : ℚ
  bias_drift_range_end : ℚ
  bias_drift_oscillations : ℚ
  bias_norm_factor : ℚ
  noise_coefficient : ℚ
  delay : ℕ
  random_seed : ℕ
  bias_drift_type : String
  noise : List ℚ
  bias_factor : ℚ
  drift_multiplier : Option (List ℚ)
  deriving DecidableEq

/-- Model of `iCGMSensor.validate_time_index`: fails when the index is before
tick 0 or after `sensor_life_days * 288 - 1`. -/
def validateTimeIndex (sensor_life_days time_index : ℤ) : Except String Unit :=
  if time_index < 0 ∨ sensor_life_days * 288 - 1 < time_index then
    Except.error "Sensor time_index outside of sensor life! "
  else Except.ok ()

/-- The record built by a successful `iCGMSensor.__init__`. -/
def mkSensorRecord (p : SensorProperties) (sensor_life_days time_index : ℤ)
    (sensor_datetime : Option ℤ) (props : List ℚ × ℚ × Option (List ℚ)) : iCGMSensorState :=
  { sensor_life_days := sensor_life_days
    time_index := time_index
    sensor_datetime := sensor_datetime
    true_bg_history := []
    sensor_bg_history := []
    datetime_history := []
    initial_bias := p.initial_bias
    phi_drift := p.phi_drift
    bias_drift_range_start := p.bias_drift_range_start
    bias_drift_range_end := p.bias_drift_range_end
    bias_drift_oscillations := p.bias_drift_oscillations
    bias_norm_factor := p.bias_norm_factor
    noise_coefficient := p.noise_coefficient
    delay := p.delay
    random_seed := p.random_seed
    bias_drift_type := p.bias_drift_type
    noise := props.1
    bias_factor := props.2.1
    drift_multiplier := props.2.2 }

/-- Model of `iCGMSensor.__init__`: rejects missing properties and
non-positive `sensor_life_days`, validates the initial `time_index`, then runs
`calculate_sensor_bias_properties`. -/
def mkICGMSensor (gauss : ℕ → ℕ → ℚ) (sine : ℚ → ℚ) (piQ : ℚ) (g : RngState)
    (sensor_properties : Option SensorProperties) (sensor_life_days time_index : ℤ)
    (sensor_datetime : Option ℤ) : Except String (iCGMSensorState × RngState) :=
  match sensor_properties with
  | none => Except.error "No Sensor Properties Given"
  | some p =>
    if sensor_life_days ≤ 0 then
      Except.error "iCGM Sensor sensor_life_days must be a positive non-zero integer"
    else
      match validateTimeIndex sensor_life_days time_index with
      | Except.error e => Except.error e
      | Except.ok _ =>
        match calculate_sensor_bias_properties gauss sine piQ g p with
        | Except.error e => Except.error e
        | Except.ok (props, g2) =>
          Except.ok (mkSensorRecord p sensor_life_days time_index sensor_datetime props, g2)

/-- Model of `iCGMSensor.update`: validates `time_index + 1` before assigning;
on failure the exception message is extended and the state is unchanged. -/
def update (s : iCGMSensorState) (time : Option ℤ) : iCGMSensorState × Option String :=
  match validateTimeIndex s.sensor_life_days (s.time_index + 1) with
  | Except.ok _ => ({ s with time_index := s.time_index + 1, sensor_datetime := time }, none)
  | Except.error e => (s, some (e ++ "Sensor has expired!"))

/-- Model of `iCGMSensor.append_bg_history`. -/
def append_bg_history (s : iCGMSensorState) (true_bg_value : ℚ) (icgm_value : Option ℚ)
    (sensor_datetime : Option ℤ) : iCGMSensorState :=
  { s with
    true_bg_history := s.true_bg_history ++ [true_bg_value]
    sensor_bg_history := s.sensor_bg_history ++ [icgm_value]
    datetime_history := s.datetime_history ++ [sensor_datetime] }

/-- Python list indexing `l[-k]` for `k ≥ 0`: index `len - k` when `k > 0`,
index `0` when `k = 0`; `IndexError` when out of range. -/
def pyNegIndex (l : List ℚ) (k : ℕ) : Except String ℚ :=
  let idx : ℤ := if 0 < k then (l.length : ℤ) - k else 0
  if h : 0 ≤ idx ∧ idx.toNat < l.length then Except.ok (l.get ⟨idx.toNat, h.2⟩)
  else Except.error "IndexError: list index out of range"

/-- Model of `iCGMSensor.get_bg`.  Validates the relative tick, applies the
delay against the supplied (or stored) true-value history, indexes the
precomputed drift and noise arrays (failing when the attribute is unset or the
index exceeds the hardcoded 2880 entries), and optionally appends to the
committed histories.  Returns the generated value (`none` = NaN). -/
def get_bg (s : iCGMSensorState) (true_bg_value : ℚ) (true_bg_history : Option (List ℚ))
    (save_to_sensor : Bool) (time_index_offset : ℤ) :
    Except String (Option ℚ × iCGMSensorState) :=
  let hist := true_bg_history.getD s.true_bg_history
  let relative_time_index := s.time_index + time_index_offset
  match validateTimeIndex s.sensor_life_days relative_time_index with
  | Except.error e => Except.error e
  | Except.ok _ =>
    let relative_sensor_datetime := s.sensor_datetime.map (fun d => d + time_index_offset * 5)
    let delayedE : Except String (Option ℚ) :=
      if 0 < s.delay then
        let delay_index := s.delay / 5
        if delay_index ≤ hist.length then
          match pyNegIndex hist delay_index with
          | Except.error e => Except.error e
          | Except.ok x => Except.ok (some x)
        else Except.ok none
      else Except.ok (some true_bg_value)
    match delayedE with
    | Except.error e => Except.error e
    | Except.ok delayed_true_bg =>
      match s.drift_multiplier with
      | none => Except.error "AttributeError: iCGMSensor object has no attribute drift_multiplier"
      | some dmArr =>
        if hdm : relative_time_index.toNat < dmArr.length then
          if hnz : relative_time_index.toNat < s.noise.length then
            let icgm_value : Option ℚ := delayed_true_bg.map (fun d =>
              d * s.bias_factor * dmArr.get ⟨relative_time_index.toNat, hdm⟩
                + s.noise.get ⟨relative_time_index.toNat, hnz⟩)
            Except.ok (icgm_value,
              if save_to_sensor then
                append_bg_history s true_bg_value icgm_value relative_sensor_datetime
              else s)
          else Except.error "IndexError: index out of bounds"
        else Except.error "IndexError: index out of bounds"

/-- The delayed true value `get_bg` uses when `delay` is 0 or a positive
multiple of 5: the history entry `delay / 5` ticks back, NaN when the history
is shorter than that, the incoming value itself when there is no delay. -/
def delayedTrueBg (delay : ℕ) (hist : List ℚ) (v : ℚ) : Option ℚ :=
  if 0 < delay then
    if delay / 5 ≤ hist.length then some (hist.getD (hist.length - delay / 5) 0) else none
  else some v

/-- Closed form of the value produced by a successful `get_bg` call:
`delayed_true * bias_factor * drift_multiplier[tick] + noise[tick]`. -/
def reportedValue (delay : ℕ) (bias_factor : ℚ) (dm nz : List ℚ) (tick : ℕ)
    (hist : List ℚ) (v : ℚ) : Option ℚ :=
  (delayedTrueBg delay hist v).map (fun d => d * bias_factor * dm.getD tick 0 + nz.getD tick 0)

/-- Recursion of `iCGMSensor.get_bg_trace`: walks the input trace feeding a
growing temporary history and an incrementing offset; an exception aborts the
walk, keeping the mutations already committed. -/
def getBgTraceGo (save_to_sensor : Bool) :
    iCGMSensorState → List ℚ → List ℚ → ℤ → List (Option ℚ) × iCGMSensorState × Option String
  | s, [], _temp, _off => ([], s, none)
  | s, v :: rest, temp, off =>
    match get_bg s v (some temp) save_to_sensor off with
    | Except.error e => ([], s, some e)
    | Except.ok (bg, s1) =>
      let r := getBgTraceGo save_to_sensor s1 rest (temp ++ [v]) (off + 1)
      (bg :: r.1, r.2.1, r.2.2)

/-- Model of `iCGMSensor.get_bg_trace`: starts from an empty temporary
history at the given offset. -/
def get_bg_trace (s : iCGMSensorState) (true_bg_trace : List ℚ) (save_to_sensor : Bool)
    (time_index_offset : ℤ) : List (Option ℚ) × iCGMSensorState × Option String :=
  getBgTraceGo save_to_sensor s true_bg_trace [] time_index_offset

/-- Model of `iCGMSensor.backfill_and_calculate_sensor_data`: validates the
first backfill tick `time_index - len + 1`, then runs `get_bg_trace` with
`save_to_sensor=True` from that offset; any exception is re-raised with an
explanatory suffix. -/
def backfill_and_calculate_sensor_data (s : iCGMSensorState)
    (backfill_true_bg_history : List ℚ) : iCGMSensorState × Option String :=
  let backfill_time_offset : ℤ := -(backfill_true_bg_history.length : ℤ) + 1
  let backfill_start_index := s.time_index + backfill_time_offset
  match validateTimeIndex s.sensor_life_days backfill_start_index with
  | Except.error e =>
    (s, some (e ++ "Trying to backfill data before start of sensor life. Either establish the sensor at a different time_index or backfill with less data."))
  | Except.ok _ =>
    match get_bg_trace s backfill_true_bg_history true backfill_time_offset with
    | (_, s1, some e) =>
      (s1, some (e ++ "Trying to backfill data before start of sensor life. Either establish the sensor at a different time_index or backfill with less data."))
    | (_, s1, none) => (s1, none)

/-- Python's built-in `round`: nearest integer, ties to the even integer
(`Rat.floor` is the computable floor `num / den`). -/
def pythonRound (q : ℚ) : ℤ :=
  let n := Rat.floor q
  if q - n < 1 / 2 then n
  else if 1 / 2 < q - n then n + 1
  else if n % 2 = 0 then n else n + 1

/-- The list comprehension in `get_loop_inputs`:
`[max(40, min(400, round(bg))) for bg in sensor_bg_history]`; `round`
raises `ValueError` on NaN. -/
def loopBgValues : List (Option ℚ) → Except String (List ℤ)
  | [] => Except.ok []
  | none :: _ => Except.error "ValueError: cannot convert float NaN to integer"
  | some q :: rest =>
    match loopBgValues rest with
    | Except.error e => Except.error e
    | Except.ok vs => Except.ok (max 40 (min 400 (pythonRound q)) :: vs)

/-- Model of `iCGMSensor.get_loop_inputs`: the datetime history paired with the
rounded, clamped sensor values. -/
def get_loop_inputs (s : iCGMSensorState) : Except String (List (Option ℤ) × List ℤ) :=
  match loopBgValues s.sensor_bg_history with
  | Except.error e => Except.error e
  | Except.ok vals => Except.ok (s.datetime_history, vals)

/-- The configuration state assembled by `iCGMSensorGenerator.__init__`
(the fields the claims refer to). -/
structure iCGMSensorGeneratorState where
  sc_thresholds : List ℚ
  sensor_batch_size : ℕ
  use_g6_accuracy_in_loss : Bool
  bias_type : String
  bias_drift_type : String
  random_seed : ℕ
  delay : ℕ
  deriving DecidableEq

/-- Model of `iCGMSensorGenerator.__init__`: fills the default special-control
thresholds when absent and picks the fixed delay from
`use_g6_accuracy_in_loss` (5 minutes-per-tick units when true, 10 otherwise). -/
def mkICGMSensorGenerator (sc_thresholds : Option (List ℚ)) (sensor_batch_size : ℕ)
    (use_g6_accuracy_in_loss : Bool) (bias_type bias_drift_type : String)
    (random_seed : ℕ) : iCGMSensorGeneratorState :=
  { sc_thresholds :=
      sc_thresholds.getD [85/100, 70/100, 80/100, 98/100, 99/100, 99/100, 87/100]
    sensor_batch_size := sensor_batch_size
    use_g6_accuracy_in_loss := use_g6_accuracy_in_loss
    bias_type := bias_type
    bias_drift_type := bias_drift_type
    random_seed := random_seed
    delay := if use_g6_accuracy_in_loss then 5 else 10 }

/-- A concrete stand-in for numpy's standard-normal stream, used to evaluate
the embedding on concrete inputs (the theorems hold for every such stream). -/
def gauss0 : ℕ → ℕ → ℚ := fun _ _ => 0

/-- A concrete stand-in for `np.sin`, used on concrete inputs only. -/
def sine0 : ℚ → ℚ := fun _ => 0

/-- A concrete rational stand-in for `np.pi`, used on concrete inputs only. -/
def piQ0 : ℚ := 355 / 113

/-- Concrete properties with `"random"` drift and distinct drift-range bounds
(start 1, end 6/5). -/
def pC1 : SensorProperties :=
  { initial_bias := 0, phi_drift := 0, bias_drift_range_start := 1,
    bias_drift_range_end := 6/5, bias_drift_oscillations := 1, bias_norm_factor := 1,
    noise_coefficient := 0, delay := 10, random_seed := 0, bias_drift_type := "random" }

/-- Concrete properties with `"none"` drift and the generator's default
10-minute delay. -/
def pC2 : SensorProperties :=
  { initial_bias := 0, phi_drift := 0, bias_drift_range_start := 1,
    bias_drift_range_end := 1, bias_drift_oscillations := 1, bias_norm_factor := 1,
    noise_coefficient := 0, delay := 10, random_seed := 0, bias_drift_type := "none" }

/-- Concrete properties with an unrecognized `bias_drift_type`. -/
def pFoo : SensorProperties :=
  { initial_bias := 0, phi_drift := 0, bias_drift_range_start := 1,
    bias_drift_range_end := 1, bias_drift_oscillations := 1, bias_norm_factor := 1,
    noise_coefficient := 0, delay := 10, random_seed := 0, bias_drift_type := "foo" }

/-- A small concrete sensor state with a 10-minute delay, used to evaluate
`get_bg`/`get_bg_trace` on concrete inputs. -/
def sSmall : iCGMSensorState :=
  { sensor_life_days := 1, time_index := 0, sensor_datetime := none,
    true_bg_history := [], sensor_bg_history := [], datetime_history := [],
    initial_bias := 0, phi_drift := 0, bias_drift_range_start := 1,
    bias_drift_range_end := 1, bias_drift_oscillations := 1, bias_norm_factor := 1,
    noise_coefficient := 0, delay := 10, random_seed := 0, bias_drift_type := "none",
    noise := [0, 0, 0, 0], bias_factor := 1, drift_multiplier := some [1, 1, 1, 1] }

/-- A small concrete sensor state at tick 2 with no delay, used to evaluate
`backfill_and_calculate_sensor_data` on concrete inputs. -/
def s0C5 : iCGMSensorState :=
  { sensor_life_days := 1, time_index := 2, sensor_datetime := none,
    true_bg_history := [], sensor_bg_history := [], datetime_history := [],
    initial_bias := 0, phi_drift := 0, bias_drift_range_start := 1,
    bias_drift_range_end := 1, bias_drift_oscillations := 1, bias_norm_factor := 1,
    noise_coefficient := 0, delay := 0, random_seed := 0, bias_drift_type := "none",
    noise := [0, 0, 100], bias_factor := 1, drift_multiplier := some [1, 1, 1] }

/-- A small concrete sensor state already at its final tick (one-day lifetime,
tick 287). -/
def sExp : iCGMSensorState :=
  { sensor_life_days := 1, time_index := 287, sensor_datetime := none,
    true_bg_history := [], sensor_bg_history := [], datetime_history := [],
    initial_bias := 0, phi_drift := 0, bias_drift_range_start := 1,
    bias_drift_range_end := 1, bias_drift_oscillations := 1, bias_norm_factor := 1,
    noise_coefficient := 0, delay := 10, random_seed := 0, bias_drift_type := "none",
    noise := [0], bias_factor := 1, drift_multiplier := some [1] }

/-- A small concrete sensor state whose committed history holds the raw values
410 and 10, used to evaluate `get_loop_inputs` on concrete inputs. -/
def sC7 : iCGMSensorState :=
  { sensor_life_days := 1, time_index := 2, sensor_datetime := none,
    true_bg_history := [410, 10],
    sensor_bg_history := [some 410, some 10], datetime_history := [],
    initial_bias := 0, phi_drift := 0, bias_drift_range_start := 1,
    bias_drift_range_end := 1, bias_drift_oscillations := 1, bias_norm_factor := 1,
    noise_coefficient := 0, delay := 0, random_seed := 0, bias_drift_type := "none",
    noise := [0, 0, 0], bias_factor := 1, drift_multiplier := some [1, 1, 1] }

/-- The computable rational floor agrees with the mathematical floor. -/
theorem ratFloor_eq_intFloor (q : ℚ) : Rat.floor q = ⌊q⌋ := by
  rw [Rat.floor_def', ← Rat.floor_def]

/-- Python `round` fixes integers. -/
theorem pythonRound_intCast (z : ℤ) : pythonRound (z : ℚ) = z := by
  simp only [pythonRound, ratFloor_eq_intFloor, Int.floor_intCast, sub_self]
  norm_num

/-- Validation succeeds exactly on ticks inside the sensor lifetime. -/
theorem validateTimeIndex_ok {life ti : ℤ} (h0 : 0 ≤ ti) (h1 : ti ≤ life * 288 - 1) :
    validateTimeIndex life ti = Except.ok () := by
  unfold validateTimeIndex
  rw [if_neg]
  push_neg
  exact ⟨by omega, by omega⟩

/-- Validation fails on every tick outside the sensor lifetime. -/
theorem validateTimeIndex_err {life ti : ℤ} (h : ti < 0 ∨ life * 288 - 1 < ti) :
    validateTimeIndex life ti = Except.error "Sensor time_index outside of sensor life! " := by
  unfold validateTimeIndex
  rw [if_pos h]

/-- Two-point interpolation with equal endpoint values is the constant map. -/
theorem npInterpTwoPoint_const (x xp0 xp1 y : ℚ) : npInterpTwoPoint x xp0 xp1 y y = y := by
  unfold npInterpTwoPoint
  split_ifs <;> ring

/-- Every element of the `"random"` drift-multiplier array equals
`bias_drift_range_start`, whatever the sine values are. -/
theorem driftMultiplierRandom_mem (sine : ℚ → ℚ) (piQ : ℚ) (p : SensorProperties) :
    ∀ x ∈ driftMultiplierRandom sine piQ p, x = p.bias_drift_range_start := by
  intro x hx
  unfold driftMultiplierRandom at hx
  rcases List.mem_map.mp hx with ⟨i, _, hi⟩
  rw [← hi, npInterpTwoPoint_const]

/-- The `"random"` drift-multiplier array has the hardcoded length 2880. -/
theorem driftMultiplierRandom_length (sine : ℚ → ℚ) (piQ : ℚ) (p : SensorProperties) :
    (driftMultiplierRandom sine piQ p).length = sensorLifetimeTicks := by
  unfold driftMultiplierRandom
  rw [List.length_map, List.length_range]

/-- The noise array has the hardcoded length 2880. -/
theorem sensorNoise_length (gauss : ℕ → ℕ → ℚ) (p : SensorProperties) :
    (sensorNoise gauss p).length = sensorLifetimeTicks := by
  unfold sensorNoise npNormalDraws
  rw [List.length_map, List.length_range]

/-- Characterization of a successful construction: under a positive lifetime, a
valid initial tick and a drift type other than `"linear"`, `__init__` returns
the record with the seeded noise array, the bias factor and the drift
multiplier, and the global stream ends at `(random_seed, 2880)`. -/
theorem mkICGMSensor_ok (gauss : ℕ → ℕ → ℚ) (sine : ℚ → ℚ) (piQ : ℚ) (g : RngState)
    (p : SensorProperties) (life ti : ℤ) (dt : Option ℤ)
    (hlife : 0 < life) (h0 : 0 ≤ ti) (h1 : ti ≤ life * 288 - 1)
    (hlin : p.bias_drift_type ≠ "linear") :
    mkICGMSensor gauss sine piQ g (some p) life ti dt =
      Except.ok (mkSensorRecord p life ti dt
        (sensorNoise gauss p, biasFactorOf p, driftSpec sine piQ p),
        (p.random_seed, sensorLifetimeTicks)) := by
  have hv : validateTimeIndex life ti = Except.ok () := validateTimeIndex_ok h0 h1
  have hc : calculate_sensor_bias_properties gauss sine piQ g p =
      Except.ok ((sensorNoise gauss p, biasFactorOf p, driftSpec sine piQ p),
        (p.random_seed, sensorLifetimeTicks)) := by
    unfold calculate_sensor_bias_properties
    rw [if_neg hlin]
    rfl
  simp only [mkICGMSensor, hv, hc, if_neg (show ¬life ≤ 0 by omega)]

/-- Passing no explicit history makes `get_bg` fall back on the committed
`true_bg_history`. -/
theorem get_bg_none (s : iCGMSensorState) (v : ℚ) (save : Bool) (off : ℤ) :
    get_bg s v none save off = get_bg s v (some s.true_bg_history) save off := rfl

/-- Python indexing `l[-k]` for `0 < k ≤ len` is the element `k` places from
the end. -/
theorem pyNegIndex_pos (l : List ℚ) (k : ℕ) (hk : 0 < k) (hlen : k ≤ l.length) :
    pyNegIndex l k = Except.ok (l.getD (l.length - k) 0) := by
  unfold pyNegIndex
  have h0 : (0 : ℤ) ≤ (l.length : ℤ) - k := by omega
  have htn : ((l.length : ℤ) - k).toNat = l.length - k := by omega
  have hlt : ((l.length : ℤ) - k).toNat < l.length := by omega
  simp only [if_pos hk]
  rw [dif_pos ⟨h0, hlt⟩, List.getD_eq_getElem l 0 (htn ▸ hlt)]
  simp only [List.get_eq_getElem, htn]

/-- Characterization of a successful `get_bg` call: under a valid in-bounds
relative tick, a set drift multiplier and a delay that is zero or at least 5
minutes, the call returns `reportedValue` and appends to the histories exactly
when `save_to_sensor` is set. -/
theorem get_bg_ok (s : iCGMSensorState) (dm hist : List ℚ) (v : ℚ) (save : Bool) (off : ℤ)
    (hdm : s.drift_multiplier = some dm)
    (hdel : s.delay = 0 ∨ 5 ≤ s.delay)
    (h0 : 0 ≤ s.time_index + off) (h1 : s.time_index + off ≤ s.sensor_life_days * 288 - 1)
    (hb1 : (s.time_index + off).toNat < dm.length)
    (hb2 : (s.time_index + off).toNat < s.noise.length) :
    get_bg s v (some hist) save off =
      Except.ok (reportedValue s.delay s.bias_factor dm s.noise (s.time_index + off).toNat hist v,
        if save then
          append_bg_history s v
            (reportedValue s.delay s.bias_factor dm s.noise (s.time_index + off).toNat hist v)
            (s.sensor_datetime.map (fun d => d + off * 5))
        else s) := by
  have hv : validateTimeIndex s.sensor_life_days (s.time_index + off) = Except.ok () :=
    validateTimeIndex_ok h0 h1
  rcases hdel with hdel | hdel
  · simp only [get_bg, Option.getD_some, hv, hdel, lt_self_iff_false, if_false, hdm,
      dif_pos hb1, dif_pos hb2, reportedValue, delayedTrueBg, Option.map_some,
      List.get_eq_getElem, List.getD_eq_getElem s.noise 0 hb2, List.getD_eq_getElem dm 0 hb1]
  · have hpos : 0 < s.delay := by omega
    have hdi : 0 < s.delay / 5 := (Nat.one_le_div_iff (by norm_num)).mpr hdel
    by_cases hlen : s.delay / 5 ≤ hist.length
    · have hget : pyNegIndex hist (s.delay / 5) =
          Except.ok (hist.getD (hist.length - s.delay / 5) 0) :=
        pyNegIndex_pos hist (s.delay / 5) hdi hlen
      simp only [get_bg, Option.getD_some, hv, if_pos hpos, if_pos hlen, hget, hdm,
        dif_pos hb1, dif_pos hb2, reportedValue, delayedTrueBg, Option.map_some,
        List.get_eq_getElem, List.getD_eq_getElem s.noise 0 hb2, List.getD_eq_getElem dm 0 hb1]
    · simp only [get_bg, Option.getD_some, hv, if_pos hpos, if_neg hlen, hdm,
        dif_pos hb1, dif_pos hb2, reportedValue, delayedTrueBg]
      rfl

/-- When `calculate_sensor_bias_properties` never set a drift multiplier
(unrecognized `bias_drift_type`), every `get_bg` call fails: either tick
validation, delay indexing, or the attribute access raises. -/
theorem get_bg_drift_none (s : iCGMSensorState) (hdm : s.drift_multiplier = none)
    (v : ℚ) (h : Option (List ℚ)) (save : Bool) (off : ℤ) :
    ∃ e, get_bg s v h save off = Except.error e := by
  rcases hv : validateTimeIndex s.sensor_life_days (s.time_index + off) with e | u
  · exact ⟨e, by simp only [get_bg, hv]⟩
  · by_cases hpos : 0 < s.delay
    · by_cases hlen : s.delay / 5 ≤ (h.getD s.true_bg_history).length
      · rcases hpy : pyNegIndex (h.getD s.true_bg_history) (s.delay / 5) with e | x
        · exact ⟨e, by simp only [get_bg, hv, if_pos hpos, if_pos hlen, hpy]⟩
        · exact ⟨"AttributeError: iCGMSensor object has no attribute drift_multiplier",
            by simp only [get_bg, hv, if_pos hpos, if_pos hlen, hpy, hdm]⟩
      · exact ⟨"AttributeError: iCGMSensor object has no attribute drift_multiplier",
          by simp only [get_bg, hv, if_pos hpos, if_neg hlen, hdm]⟩
    · exact ⟨"AttributeError: iCGMSensor object has no attribute drift_multiplier",
        by simp only [get_bg, hv, if_neg hpos, hdm]⟩

/-- Closed form of `get_bg_trace`: when every tick the walk touches is valid
and in bounds, the walk succeeds, its `j`-th output is the reported value for
the `j`-th trace entry against the first `j` entries as delay history, and the
histories grow by exactly the committed values when `save_to_sensor` is set. -/
theorem getBgTraceGo_ok (save : Bool) (trace : List ℚ) :
    ∀ (s : iCGMSensorState) (dm temp : List ℚ) (off : ℤ),
    s.drift_multiplier = some dm →
    (s.delay = 0 ∨ 5 ≤ s.delay) →
    (∀ j : ℕ, j < trace.length →
      0 ≤ s.time_index + off + j ∧ s.time_index + off + j ≤ s.sensor_life_days * 288 - 1 ∧
      (s.time_index + off + j).toNat < dm.length ∧ (s.time_index + off + j).toNat < s.noise.length) →
    ∃ sF : iCGMSensorState,
      getBgTraceGo save s trace temp off =
        ((List.range trace.length).map (fun (j : ℕ) =>
          reportedValue s.delay s.bias_factor dm s.noise (s.time_index + off + j).toNat
            (temp ++ trace.take j) (trace.getD j 0)), sF, none) ∧
      sF.sensor_bg_history = s.sensor_bg_history ++
        (if save then (List.range trace.length).map (fun (j : ℕ) =>
          reportedValue s.delay s.bias_factor dm s.noise (s.time_index + off + j).toNat
            (temp ++ trace.take j) (trace.getD j 0)) else []) ∧
      sF.true_bg_history = s.true_bg_history ++ (if save then trace else []) ∧
      sF.time_index = s.time_index ∧ sF.sensor_life_days = s.sensor_life_days ∧
      sF.delay = s.delay ∧ sF.bias_factor = s.bias_factor ∧ sF.noise = s.noise ∧
      sF.drift_multiplier = s.drift_multiplier := by
  induction trace with
  | nil =>
    intro s dm temp off hdm hdel _
    exact ⟨s, by simp [getBgTraceGo], by simp, by simp, rfl, rfl, rfl, rfl, rfl, rfl⟩
  | cons v rest ih =>
    intro s dm temp off hdm hdel hcond
    have h0 := hcond 0 (by simp)
    have hg := get_bg_ok s dm temp v save off hdm hdel
      (by simpa using h0.1) (by simpa using h0.2.1)
      (by simpa using h0.2.2.1) (by simpa using h0.2.2.2)
    set val := reportedValue s.delay s.bias_factor dm s.noise (s.time_index + off).toNat temp v
      with hval
    set s1 := (if save then
        append_bg_history s v val (s.sensor_datetime.map (fun d => d + off * 5))
      else s) with hs1
    have hf1 : s1.time_index = s.time_index := by
      cases save <;> simp [hs1, append_bg_history]
    have hf2 : s1.sensor_life_days = s.sensor_life_days := by
      cases save <;> simp [hs1, append_bg_history]
    have hf3 : s1.delay = s.delay := by
      cases save <;> simp [hs1, append_bg_history]
    have hf4 : s1.bias_factor = s.bias_factor := by
      cases save <;> simp [hs1, append_bg_history]
    have hf5 : s1.noise = s.noise := by
      cases save <;> simp [hs1, append_bg_history]
    have hf6 : s1.drift_multiplier = s.drift_multiplier := by
      cases save <;> simp [hs1, append_bg_history]
    have hdm1 : s1.drift_multiplier = some dm := by rw [hf6, hdm]
    have hdel1 : s1.delay = 0 ∨ 5 ≤ s1.delay := by rw [hf3]; exact hdel
    have hcond1 : ∀ j : ℕ, j < rest.length →
        0 ≤ s1.time_index + (off + 1) + j ∧
        s1.time_index + (off + 1) + j ≤ s1.sensor_life_days * 288 - 1 ∧
        (s1.time_index + (off + 1) + j).toNat < dm.length ∧
        (s1.time_index + (off + 1) + j).toNat < s1.noise.length := by
      intro j hj
      have harith : s1.time_index + (off + 1) + (j : ℤ) =
          s.time_index + off + ((j + 1 : ℕ) : ℤ) := by
        rw [hf1]; push_cast; ring
      have h := hcond (j + 1) (by simpa using Nat.succ_lt_succ hj)
      exact ⟨by rw [harith]; exact h.1, by rw [harith, hf2]; exact h.2.1,
        by rw [harith]; exact h.2.2.1, by rw [harith, hf5]; exact h.2.2.2⟩
    obtain ⟨sF, hgo, hsb, htb, hfti, hflife, hfdelay, hfbf, hfnoise, hfdrift⟩ :=
      ih s1 dm (temp ++ [v]) (off + 1) hdm1 hdel1 hcond1
    have hlist : (List.range (v :: rest).length).map (fun (j : ℕ) =>
        reportedValue s.delay s.bias_factor dm s.noise (s.time_index + off + j).toNat
          (temp ++ (v :: rest).take j) ((v :: rest).getD j 0)) =
        val :: (List.range rest.length).map (fun (j : ℕ) =>
          reportedValue s1.delay s1.bias_factor dm s1.noise (s1.time_index + (off + 1) + j).toNat
            ((temp ++ [v]) ++ rest.take j) (rest.getD j 0)) := by
      rw [List.length_cons, List.range_succ_eq_map, List.map_cons, List.map_map]
      congr 1
      · simp [hval]
      · apply List.map_congr_left
        intro j _
        simp only [Function.comp_apply, Nat.succ_eq_add_one, List.take_succ_cons,
          List.getD_cons_succ, hf1, hf3, hf4, hf5]
        have harith : s.time_index + off + ((j + 1 : ℕ) : ℤ) =
            s.time_index + (off + 1) + (j : ℤ) := by push_cast; ring
        rw [harith, List.append_cons]
    refine ⟨sF, ?_, ?_, ?_, hfti.trans hf1, hflife.trans hf2, hfdelay.trans hf3,
      hfbf.trans hf4, hfnoise.trans hf5, hfdrift.trans hf6⟩
    · simp only [getBgTraceGo, hg, hgo, hlist]
    · rw [hsb, hlist]
      cases save
      · simp [hs1]
      · have : s1.sensor_bg_history = s.sensor_bg_history ++ [val] := by
          simp [hs1, append_bg_history]
        simp [this, List.append_assoc]
    · rw [htb]
      cases save
      · simp [hs1]
      · have : s1.true_bg_history = s.true_bg_history ++ [v] := by
          simp [hs1, append_bg_history]
        simp [this, List.append_assoc]

/-- `update` succeeds when the advanced tick is still within the lifetime. -/
theorem update_ok (s : iCGMSensorState) (t : Option ℤ)
    (h0 : 0 ≤ s.time_index + 1) (h1 : s.time_index + 1 ≤ s.sensor_life_days * 288 - 1) :
    update s t = ({ s with time_index := s.time_index + 1, sensor_datetime := t }, none) := by
  unfold update
  rw [validateTimeIndex_ok h0 h1]

/-- `update` fails, leaving the state untouched, when the advanced tick is
outside the lifetime. -/
theorem update_err (s : iCGMSensorState) (t : Option ℤ)
    (h : s.time_index + 1 < 0 ∨ s.sensor_life_days * 288 - 1 < s.time_index + 1) :
    update s t =
      (s, some ("Sensor time_index outside of sensor life! " ++ "Sensor has expired!")) := by
  unfold update
  rw [validateTimeIndex_err h]

/-- Python `round` is a nearest-integer rounding: it never moves a value by
more than a half. -/
theorem pythonRound_nearest (q : ℚ) : |(pythonRound q : ℚ) - q| ≤ 1 / 2 := by
  have h0 : (⌊q⌋ : ℚ) ≤ q := Int.floor_le q
  have h1 : q < ⌊q⌋ + 1 := Int.lt_floor_add_one q
  simp only [pythonRound, ratFloor_eq_intFloor]
  split_ifs with ha hb hc
  · rw [abs_le]; constructor <;> linarith
  · rw [abs_le]; push_cast; constructor <;> linarith
  · rw [abs_le]; constructor <;> linarith [le_of_not_lt hb]
  · rw [abs_le]; push_cast; constructor <;> linarith [le_of_not_lt ha]

/-- The clamped rounded value always lies in `[40, 400]`. -/
theorem clamp_bound (x : ℤ) : 40 ≤ max 40 (min 400 x) ∧ max 40 (min 400 x) ≤ 400 :=
  ⟨le_max_left 40 (min 400 x), max_le (by norm_num) (min_le_left 400 x)⟩

/-- Characterization of a successful `get_loop_inputs` value list: one output
per committed history entry, each the clamped rounding of its raw value, and
every output within `[40, 400]`. -/
theorem loopBgValues_ok :
    ∀ (l : List (Option ℚ)) (vals : List ℤ), loopBgValues l = Except.ok vals →
    vals.length = l.length ∧
    (∀ v ∈ vals, 40 ≤ v ∧ v ≤ 400) ∧
    (∀ i : ℕ, i < l.length → ∀ raw : ℚ, l.getD i none = some raw →
      vals.getD i 0 = max 40 (min 400 (pythonRound raw))) := by
  intro l
  induction l with
  | nil =>
    intro vals h
    rw [loopBgValues] at h
    cases h
    exact ⟨rfl, by intro v hv; simp at hv, by intro i hi; simp at hi⟩
  | cons a rest ih =>
    intro vals h
    match a with
    | none => rw [loopBgValues] at h; cases h
    | some q =>
      rcases hrec : loopBgValues rest with e | vs
      · rw [loopBgValues, hrec] at h; cases h
      · rw [loopBgValues, hrec] at h
        cases h
        obtain ⟨hlen, hmem, hidx⟩ := ih vs hrec
        refine ⟨by simp [hlen], ?_, ?_⟩
        · intro v hv
          rcases List.mem_cons.mp hv with hv | hv
          · exact hv ▸ clamp_bound (pythonRound q)
          · exact hmem v hv
        · intro i hi raw hraw
          match i with
          | 0 =>
            simp only [List.getD_cons_zero] at hraw
            cases hraw
            simp
          | Nat.succ i =>
            simp only [List.getD_cons_succ] at hraw ⊢
            exact hidx i (by simpa using hi) raw hraw

/-- The hardcoded array length, as a numeral. -/
theorem sensorLifetimeTicks_eq : sensorLifetimeTicks = 2880 := rfl

/-- For a recognized drift type the drift multiplier is set and has the
hardcoded length 2880. -/
theorem driftSpec_some (sine : ℚ → ℚ) (piQ : ℚ) (p : SensorProperties)
    (hdrift : p.bias_drift_type = "random" ∨ p.bias_drift_type = "none") :
    ∃ dm, driftSpec sine piQ p = some dm ∧ dm.length = sensorLifetimeTicks := by
  rcases hdrift with h | h
  · exact ⟨driftMultiplierRandom sine piQ p, by rw [driftSpec, if_pos h],
      driftMultiplierRandom_length sine piQ p⟩
  · refine ⟨List.replicate sensorLifetimeTicks 1, ?_, by simp⟩
    rw [driftSpec, if_neg (by rw [h]; decide), if_pos h]

set_option maxRecDepth 4000 in
/-- A freshly constructed sensor with a recognized drift type, a delay of 0 or
at least 5 minutes, a lifetime of at most 10 days and any valid initial tick
accepts one `get_bg` call, which keeps `time_index` and lifetime unchanged. -/
theorem fresh_sensor_report (gauss : ℕ → ℕ → ℚ) (sine : ℚ → ℚ) (piQ : ℚ) (g : RngState)
    (p : SensorProperties) (life t : ℤ) (v : ℚ)
    (hdrift : p.bias_drift_type = "random" ∨ p.bias_drift_type = "none")
    (hdel : p.delay = 0 ∨ 5 ≤ p.delay)
    (hlife0 : 0 < life) (hlife10 : life ≤ 10)
    (ht0 : 0 ≤ t) (ht1 : t ≤ life * 288 - 1) :
    ∃ (s s1 : iCGMSensorState) (x : Option ℚ),
      mkICGMSensor gauss sine piQ g (some p) life t none =
        Except.ok (s, (p.random_seed, sensorLifetimeTicks)) ∧
      get_bg s v none true 0 = Except.ok (x, s1) ∧
      s1.time_index = t ∧ s1.sensor_life_days = life := by
  have hlin : p.bias_drift_type ≠ "linear" := by
    rcases hdrift with h | h <;> rw [h] <;> decide
  have hmk := mkICGMSensor_ok gauss sine piQ g p life t none hlife0 ht0 ht1 hlin
  obtain ⟨dm, hdmspec, hdmlen⟩ := driftSpec_some sine piQ p hdrift
  set s := mkSensorRecord p life t none
    (sensorNoise gauss p, biasFactorOf p, driftSpec sine piQ p) with hs
  have hti : s.time_index = t := rfl
  have hlife : s.sensor_life_days = life := rfl
  have hsdm : s.drift_multiplier = some dm := hdmspec
  have hdel' : s.delay = 0 ∨ 5 ≤ s.delay := hdel
  have hnl : s.noise.length = sensorLifetimeTicks := sensorNoise_length gauss p
  have hb1 : (s.time_index + 0).toNat < dm.length := by
    rw [hti, hdmlen, sensorLifetimeTicks_eq]; omega
  have hb2 : (s.time_index + 0).toNat < s.noise.length := by
    rw [hti, hnl, sensorLifetimeTicks_eq]; omega
  have hbg := get_bg_ok s dm [] v true 0 hsdm hdel'
    (by rw [hti]; omega) (by rw [hti, hlife]; omega) hb1 hb2
  have hhist : s.true_bg_history = [] := rfl
  refine ⟨s,
    append_bg_history s v
      (reportedValue s.delay s.bias_factor dm s.noise (s.time_index + 0).toNat [] v)
      (Option.map (fun d => d + 0 * 5) s.sensor_datetime),
    reportedValue s.delay s.bias_factor dm s.noise (s.time_index + 0).toNat [] v,
    hmk, ?_, rfl, rfl⟩
  rw [get_bg_none, hhist, hbg, if_pos rfl]

/-- Characterization of a successful backfill: when the window fits inside the
lifetime, the call commits one reported value per window entry at consecutive
ticks ending exactly at the current `time_index`. -/
theorem backfill_ok (s : iCGMSensorState) (dm hist : List ℚ)
    (hdm : s.drift_multiplier = some dm) (hdel : s.delay = 0 ∨ 5 ≤ s.delay)
    (hne : hist ≠ [])
    (hstart : 0 ≤ s.time_index + (-(hist.length : ℤ) + 1))
    (hti : s.time_index ≤ s.sensor_life_days * 288 - 1)
    (hb1 : s.time_index.toNat < dm.length) (hb2 : s.time_index.toNat < s.noise.length) :
    ∃ sF : iCGMSensorState,
      backfill_and_calculate_sensor_data s hist = (sF, none) ∧
      sF.sensor_bg_history = s.sensor_bg_history ++ (List.range hist.length).map (fun (j : ℕ) =>
        reportedValue s.delay s.bias_factor dm s.noise
          (s.time_index + (-(hist.length : ℤ) + 1) + j).toNat (hist.take j) (hist.getD j 0)) ∧
      sF.true_bg_history = s.true_bg_history ++ hist ∧
      sF.time_index = s.time_index ∧
      (∀ j : ℕ, j < hist.length →
        s.time_index + (-(hist.length : ℤ) + 1) + j ≤ s.time_index) ∧
      s.time_index + (-(hist.length : ℤ) + 1) + ((hist.length - 1 : ℕ) : ℤ) = s.time_index := by
  have hlen1 : 1 ≤ hist.length := List.length_pos.mpr hne
  have hcond : ∀ j : ℕ, j < hist.length →
      0 ≤ s.time_index + (-(hist.length : ℤ) + 1) + j ∧
      s.time_index + (-(hist.length : ℤ) + 1) + j ≤ s.sensor_life_days * 288 - 1 ∧
      (s.time_index + (-(hist.length : ℤ) + 1) + j).toNat < dm.length ∧
      (s.time_index + (-(hist.length : ℤ) + 1) + j).toNat < s.noise.length := by
    intro j hj
    exact ⟨by omega, by omega, by omega, by omega⟩
  obtain ⟨sF, hgo, hsb, htb, hfti, _, _, _, _, _⟩ :=
    getBgTraceGo_ok true hist s dm [] (-(hist.length : ℤ) + 1) hdm hdel hcond
  have hvalid : validateTimeIndex s.sensor_life_days
      (s.time_index + (-(hist.length : ℤ) + 1)) = Except.ok () :=
    validateTimeIndex_ok hstart (by omega)
  refine ⟨sF, ?_, ?_, by simpa using htb, hfti, fun j hj => by omega, by omega⟩
  · simp only [backfill_and_calculate_sensor_data, hvalid, get_bg_trace, hgo]
  · simpa using hsb

/-- C1: for a sensor built with `bias_drift_type = "random"` and distinct
drift-range bounds (`pC1`: start 1, end 6/5), the precomputed drift-multiplier
array is constant — every entry equals `bias_drift_range_start` — because the
source interpolates the sinusoid onto `(bias_drift_range_start,
bias_drift_range_start)` instead of `(bias_drift_range_start,
bias_drift_range_end)`; this holds for every sine stream, refuting the claimed
non-constant mapping into the two-bound range. -/
theorem C1_drift_multiplier_collapsed (gauss : ℕ → ℕ → ℚ) (sine : ℚ → ℚ) (piQ : ℚ)
    (g : RngState) :
    ∃ (s : iCGMSensorState) (r : RngState) (dm : List ℚ),
      mkICGMSensor gauss sine piQ g (some pC1) 10 0 none = Except.ok (s, r) ∧
      s.drift_multiplier = some dm ∧ dm.length = 2880 ∧
      (∀ x ∈ dm, x = pC1.bias_drift_range_start) ∧
      pC1.bias_drift_range_start ≠ pC1.bias_drift_range_end := by
  refine ⟨_, _, driftMultiplierRandom sine piQ pC1,
    mkICGMSensor_ok gauss sine piQ g pC1 10 0 none (by norm_num) le_rfl (by norm_num)
      (by decide),
    ?_, ?_, driftMultiplierRandom_mem sine piQ pC1, by show (1 : ℚ) ≠ 6/5; norm_num⟩
  · show driftSpec sine piQ pC1 = some (driftMultiplierRandom sine piQ pC1)
    rw [driftSpec, if_pos (show pC1.bias_drift_type = "random" from rfl)]
  · rw [driftMultiplierRandom_length, sensorLifetimeTicks_eq]

/-- C2 (amended): for a sensor with a recognized drift type, a delay of 0 or at
least 5 minutes and a lifetime of at most 10 days, at every tick `t` with
`0 ≤ t ≤ sensor_life_days*288 - 2` a `get_bg` call followed by `update` never
raises; and any `update` whose resulting index would pass the final tick
always raises an expired error, leaving the state unchanged. -/
theorem C2_report_then_update (gauss : ℕ → ℕ → ℚ) (sine : ℚ → ℚ) (piQ : ℚ) (g : RngState)
    (p : SensorProperties) (life t : ℤ) (v : ℚ) (dt dt2 : Option ℤ)
    (hdrift : p.bias_drift_type = "random" ∨ p.bias_drift_type = "none")
    (hdel : p.delay = 0 ∨ 5 ≤ p.delay)
    (hlife : 0 < life ∧ life ≤ 10)
    (ht : 0 ≤ t ∧ t ≤ life * 288 - 2) :
    (∃ (s s1 s2 : iCGMSensorState) (r : RngState) (x : Option ℚ),
      mkICGMSensor gauss sine piQ g (some p) life t none = Except.ok (s, r) ∧
      get_bg s v none true 0 = Except.ok (x, s1) ∧
      update s1 dt = (s2, none)) ∧
    (∀ q : iCGMSensorState, q.sensor_life_days * 288 - 1 < q.time_index + 1 →
      ∃ e, update q dt2 = (q, some e)) := by
  constructor
  · obtain ⟨s, s1, x, hmk, hbg, hti, hlife1⟩ :=
      fresh_sensor_report gauss sine piQ g p life t v hdrift hdel hlife.1 hlife.2 ht.1
        (by omega)
    exact ⟨s, s1, _, _, x, hmk, hbg,
      update_ok s1 dt (by rw [hti]; omega) (by rw [hti, hlife1]; omega)⟩
  · intro q hq
    exact ⟨_, update_err q dt2 (Or.inr hq)⟩

/-- Witness for C2 at a concrete input: properties `pC2`, lifetime 10 days,
tick 5. -/
theorem C2_report_then_update_witness :
    (∃ (s s1 s2 : iCGMSensorState) (r : RngState) (x : Option ℚ),
      mkICGMSensor gauss0 sine0 piQ0 (0, 0) (some pC2) 10 5 none = Except.ok (s, r) ∧
      get_bg s 100 none true 0 = Except.ok (x, s1) ∧
      update s1 none = (s2, none)) ∧
    (∀ q : iCGMSensorState, q.sensor_life_days * 288 - 1 < q.time_index + 1 →
      ∃ e, update q none = (q, some e)) :=
  C2_report_then_update gauss0 sine0 piQ0 (0, 0) pC2 10 5 100 none none
    (Or.inr rfl) (Or.inr (by decide)) ⟨by norm_num, le_rfl⟩ ⟨by norm_num, by norm_num⟩

/-- Counterexample to C2 as stated: tick `2879 = 10*288 - 1` is a valid
`time_index` (it passes validation), `get_bg` there succeeds, yet the
immediately following `update` raises the expired error. -/
theorem C2_counterexample :
    ∃ (s s1 : iCGMSensorState) (x : Option ℚ) (e : String),
      mkICGMSensor gauss0 sine0 piQ0 (0, 0) (some pC2) 10 2879 none =
        Except.ok (s, (pC2.random_seed, sensorLifetimeTicks)) ∧
      (0 ≤ (2879 : ℤ) ∧ (2879 : ℤ) ≤ 10 * 288 - 1) ∧
      get_bg s 100 none true 0 = Except.ok (x, s1) ∧
      update s1 none = (s1, some e) := by
  obtain ⟨s, s1, x, hmk, hbg, hti, hlife1⟩ :=
    fresh_sensor_report gauss0 sine0 piQ0 (0, 0) pC2 10 2879 100
      (Or.inr rfl) (Or.inr (by decide)) (by norm_num) le_rfl (by norm_num) (by norm_num)
  exact ⟨s, s1, x, _, hmk, ⟨by norm_num, by norm_num⟩, hbg,
    update_err s1 none (Or.inr (by rw [hti, hlife1]; norm_num))⟩

/-- C3: a successful `get_bg` at relative tick `time_index + offset` first
validates the tick, then returns `delayed_true * bias_factor *
drift_multiplier[tick] + noise[tick]`, the delayed true value being the
supplied history entry `delay/5` ticks back (NaN when the history is shorter);
and for a trace walked by `get_bg_trace` with `delay = 10` the value reported
at position `k ≥ 2` derives from the true value at position `k - 2`. -/
theorem C3_get_bg_delay_formula (s : iCGMSensorState) (dm hist trace : List ℚ)
    (v : ℚ) (save : Bool) (off : ℤ) (k : ℕ)
    (hdm : s.drift_multiplier = some dm)
    (hdiv : 5 ∣ s.delay) :
    ((0 ≤ s.time_index + off → s.time_index + off ≤ s.sensor_life_days * 288 - 1 →
      (s.time_index + off).toNat < dm.length → (s.time_index + off).toNat < s.noise.length →
      get_bg s v (some hist) save off =
        Except.ok
          (reportedValue s.delay s.bias_factor dm s.noise (s.time_index + off).toNat hist v,
           if save then
             append_bg_history s v
               (reportedValue s.delay s.bias_factor dm s.noise (s.time_index + off).toNat
                 hist v)
               (s.sensor_datetime.map (fun d => d + off * 5))
           else s))) ∧
    (s.delay = 10 → 2 ≤ k → k < trace.length →
      (∀ j : ℕ, j < trace.length →
        0 ≤ s.time_index + off + j ∧ s.time_index + off + j ≤ s.sensor_life_days * 288 - 1 ∧
        (s.time_index + off + j).toNat < dm.length ∧
        (s.time_index + off + j).toNat < s.noise.length) →
      ∃ (outs : List (Option ℚ)) (sF : iCGMSensorState) (err : Option String),
        get_bg_trace s trace save off = (outs, sF, err) ∧ err = none ∧
        outs.getD k none = some (trace.getD (k - 2) 0 * s.bias_factor *
          dm.getD (s.time_index + off + k).toNat 0 +
          s.noise.getD (s.time_index + off + k).toNat 0)) := by
  have hdel : s.delay = 0 ∨ 5 ≤ s.delay := by
    rcases hdiv with ⟨c, hc⟩; omega
  constructor
  · intro h0 h1 hb1 hb2
    exact get_bg_ok s dm hist v save off hdm hdel h0 h1 hb1 hb2
  · intro hd10 hk2 hklt hcond
    obtain ⟨sF, hgo, -⟩ := getBgTraceGo_ok save trace s dm [] off hdm hdel hcond
    refine ⟨_, sF, none, hgo, rfl, ?_⟩
    have hklt2 : k < ((List.range trace.length).map (fun (j : ℕ) =>
        reportedValue s.delay s.bias_factor dm s.noise (s.time_index + off + j).toNat
          ([] ++ trace.take j) (trace.getD j 0))).length := by
      simpa using hklt
    rw [List.getD_eq_getElem _ none hklt2]
    simp only [List.getElem_map, List.getElem_range, List.nil_append]
    have htklen : (trace.take k).length = k := by
      rw [List.length_take]
      omega
    have hk2' : 10 / 5 ≤ (trace.take k).length := by
      rw [htklen]; omega
    rw [reportedValue, delayedTrueBg, hd10, if_pos (by norm_num : (0 : ℕ) < 10),
      if_pos hk2']
    have hsub : (trace.take k).length - 10 / 5 = k - 2 := by
      rw [htklen]
    have hbound : k - 2 < (trace.take k).length := by omega
    rw [hsub, List.getD_eq_getElem (trace.take k) 0 (hsub ▸ hbound),
      List.getElem_take, ← List.getD_eq_getElem trace 0 (by omega : k - 2 < trace.length)]
    rfl

/-- Witness for C3 at a concrete input: the sensor `sSmall` (delay 10) and the
trace `[100, 110, 120, 130]`; the value at position 2 derives from the trace
entry at position 0. -/
theorem C3_get_bg_delay_formula_witness :
    (get_bg sSmall 0 (some []) false 0 =
      Except.ok
        (reportedValue sSmall.delay sSmall.bias_factor [1, 1, 1, 1] sSmall.noise
          (sSmall.time_index + 0).toNat [] 0,
         if false then
           append_bg_history sSmall 0
             (reportedValue sSmall.delay sSmall.bias_factor [1, 1, 1, 1] sSmall.noise
               (sSmall.time_index + 0).toNat [] 0)
             (sSmall.sensor_datetime.map (fun d => d + 0 * 5))
         else sSmall)) ∧
    (∃ (outs : List (Option ℚ)) (sF : iCGMSensorState) (err : Option String),
      get_bg_trace sSmall [100, 110, 120, 130] false 0 = (outs, sF, err) ∧ err = none ∧
      outs.getD 2 none = some (([100, 110, 120, 130] : List ℚ).getD (2 - 2) 0 *
        sSmall.bias_factor * ([1, 1, 1, 1] : List ℚ).getD (sSmall.time_index + 0 + (2 : ℕ)).toNat 0 +
        sSmall.noise.getD (sSmall.time_index + 0 + (2 : ℕ)).toNat 0)) := by
  have h := C3_get_bg_delay_formula sSmall [1, 1, 1, 1] [] [100, 110, 120, 130]
    0 false 0 2 rfl ⟨2, rfl⟩
  refine ⟨h.1 (by decide) (by decide) (by decide) (by decide),
    h.2 rfl (by norm_num) (by decide) ?_⟩
  intro j hj
  have h1 : sSmall.time_index = 0 := rfl
  have h2 : sSmall.sensor_life_days = 1 := rfl
  have h3 : sSmall.noise.length = 4 := rfl
  have h4 : ([1, 1, 1, 1] : List ℚ).length = 4 := rfl
  have h5 : ([100, 110, 120, 130] : List ℚ).length = 4 := rfl
  rw [h5] at hj
  exact ⟨by rw [h1]; omega, by rw [h1, h2]; omega, by rw [h1, h4]; omega,
    by rw [h1, h3]; omega⟩

/-- C4 (amended): the noise and drift-multiplier arrays of a successfully
constructed sensor have the hardcoded length 2880 = 288*10 — not
`sensor_life_days * 288` in general — so every validated `time_index` is in
bounds exactly when the lifetime is at most 10 days. -/
theorem C4_array_lengths (gauss : ℕ → ℕ → ℚ) (sine : ℚ → ℚ) (piQ : ℚ) (g : RngState)
    (p : SensorProperties) (life t : ℤ)
    (hlin : p.bias_drift_type ≠ "linear")
    (hlife : 0 < life ∧ life ≤ 10)
    (ht : 0 ≤ t ∧ t ≤ life * 288 - 1) :
    ∃ (s : iCGMSensorState) (r : RngState),
      mkICGMSensor gauss sine piQ g (some p) life t none = Except.ok (s, r) ∧
      s.noise.length = 2880 ∧
      (∀ dm : List ℚ, s.drift_multiplier = some dm → dm.length = 2880) ∧
      (∀ u : ℤ, 0 ≤ u → u ≤ life * 288 - 1 →
        validateTimeIndex life u = Except.ok () ∧ u.toNat < s.noise.length) := by
  refine ⟨_, _, mkICGMSensor_ok gauss sine piQ g p life t none hlife.1 ht.1 ht.2 hlin,
    ?_, ?_, ?_⟩
  · show (sensorNoise gauss p).length = 2880
    rw [sensorNoise_length, sensorLifetimeTicks_eq]
  · intro dm hdm
    have hspec : driftSpec sine piQ p = some dm := hdm
    rw [driftSpec] at hspec
    by_cases h1 : p.bias_drift_type = "random"
    · rw [if_pos h1] at hspec
      cases hspec
      rw [driftMultiplierRandom_length, sensorLifetimeTicks_eq]
    · rw [if_neg h1] at hspec
      by_cases h2 : p.bias_drift_type = "none"
      · rw [if_pos h2] at hspec
        cases hspec
        rw [List.length_replicate, sensorLifetimeTicks_eq]
      · rw [if_neg h2] at hspec
        cases hspec
  · intro u hu0 hu1
    refine ⟨validateTimeIndex_ok hu0 hu1, ?_⟩
    show u.toNat < (sensorNoise gauss p).length
    rw [sensorNoise_length, sensorLifetimeTicks_eq]
    omega

/-- Witness for C4 (amended) at a concrete input: properties `pC2`, lifetime
10 days, tick 0. -/
theorem C4_array_lengths_witness :
    ∃ (s : iCGMSensorState) (r : RngState),
      mkICGMSensor gauss0 sine0 piQ0 (0, 0) (some pC2) 10 0 none = Except.ok (s, r) ∧
      s.noise.length = 2880 ∧
      (∀ dm : List ℚ, s.drift_multiplier = some dm → dm.length = 2880) ∧
      (∀ u : ℤ, 0 ≤ u → u ≤ 10 * 288 - 1 →
        validateTimeIndex 10 u = Except.ok () ∧ u.toNat < s.noise.length) :=
  C4_array_lengths gauss0 sine0 piQ0 (0, 0) pC2 10 0 (by decide)
    ⟨by norm_num, le_rfl⟩ ⟨le_rfl, by norm_num⟩

/-- Counterexample to C4 as stated: with an 11-day lifetime the noise array
still has 2880 entries — not 11*288 = 3168 — and tick 2880 passes validation
while being out of bounds. -/
theorem C4_counterexample :
    ∃ (s : iCGMSensorState) (r : RngState),
      mkICGMSensor gauss0 sine0 piQ0 (0, 0) (some pC2) 11 0 none = Except.ok (s, r) ∧
      s.noise.length = 2880 ∧ s.noise.length ≠ 11 * 288 ∧
      validateTimeIndex 11 2880 = Except.ok () ∧ ¬(2880 : ℤ).toNat < s.noise.length := by
  refine ⟨_, _, mkICGMSensor_ok gauss0 sine0 piQ0 (0, 0) pC2 11 0 none (by norm_num)
    le_rfl (by norm_num) (by decide), ?_, ?_,
    validateTimeIndex_ok (by norm_num) (by norm_num), ?_⟩
  · show (sensorNoise gauss0 pC2).length = 2880
    rw [sensorNoise_length, sensorLifetimeTicks_eq]
  · show (sensorNoise gauss0 pC2).length ≠ 11 * 288
    rw [sensorNoise_length, sensorLifetimeTicks_eq]
    norm_num
  · show ¬(2880 : ℤ).toNat < (sensorNoise gauss0 pC2).length
    rw [sensorNoise_length, sensorLifetimeTicks_eq]
    omega

/-- C5 (amended): a successful backfill commits one reported value per window
entry at consecutive ticks ending AT the current `time_index` — up to and
including it, not strictly before — and when the window start
`time_index - len + 1` precedes tick 0 the call fails with an informative
error, committing nothing and leaving the state unchanged. -/
theorem C5_backfill (s : iCGMSensorState) (dm hist : List ℚ)
    (hdm : s.drift_multiplier = some dm)
    (hdel : s.delay = 0 ∨ 5 ≤ s.delay) :
    ((hist ≠ [] → 0 ≤ s.time_index + (-(hist.length : ℤ) + 1) →
      s.time_index ≤ s.sensor_life_days * 288 - 1 →
      s.time_index.toNat < dm.length → s.time_index.toNat < s.noise.length →
      ∃ sF : iCGMSensorState,
        backfill_and_calculate_sensor_data s hist = (sF, none) ∧
        sF.sensor_bg_history = s.sensor_bg_history ++
          (List.range hist.length).map (fun (j : ℕ) =>
            reportedValue s.delay s.bias_factor dm s.noise
              (s.time_index + (-(hist.length : ℤ) + 1) + j).toNat
              (hist.take j) (hist.getD j 0)) ∧
        sF.true_bg_history = s.true_bg_history ++ hist ∧
        sF.time_index = s.time_index ∧
        (∀ j : ℕ, j < hist.length →
          s.time_index + (-(hist.length : ℤ) + 1) + j ≤ s.time_index) ∧
        s.time_index + (-(hist.length : ℤ) + 1) + ((hist.length - 1 : ℕ) : ℤ) =
          s.time_index) ∧
     (s.time_index + (-(hist.length : ℤ) + 1) < 0 →
      ∃ e, backfill_and_calculate_sensor_data s hist = (s, some e))) := by
  constructor
  · intro hne hstart hti hb1 hb2
    exact backfill_ok s dm hist hdm hdel hne hstart hti hb1 hb2
  · intro hneg
    exact ⟨"Sensor time_index outside of sensor life! " ++ "Trying to backfill data before start of sensor life. Either establish the sensor at a different time_index or backfill with less data.",
      by simp only [backfill_and_calculate_sensor_data, validateTimeIndex_err (Or.inl hneg)]⟩

/-- Witness for C5 at a concrete input: the sensor `s0C5` at tick 2 backfilled
with a three-entry window, committing ticks 0, 1 and 2. -/
theorem C5_backfill_witness :
    ∃ sF : iCGMSensorState,
      backfill_and_calculate_sensor_data s0C5 [50, 60, 70] = (sF, none) ∧
      sF.sensor_bg_history = s0C5.sensor_bg_history ++
        (List.range ([50, 60, 70] : List ℚ).length).map (fun (j : ℕ) =>
          reportedValue s0C5.delay s0C5.bias_factor [1, 1, 1] s0C5.noise
            (s0C5.time_index + (-(([50, 60, 70] : List ℚ).length : ℤ) + 1) + j).toNat
            (([50, 60, 70] : List ℚ).take j) (([50, 60, 70] : List ℚ).getD j 0)) ∧
      sF.true_bg_history = s0C5.true_bg_history ++ [50, 60, 70] ∧
      sF.time_index = s0C5.time_index ∧
      (∀ j : ℕ, j < ([50, 60, 70] : List ℚ).length →
        s0C5.time_index + (-(([50, 60, 70] : List ℚ).length : ℤ) + 1) + j ≤
          s0C5.time_index) ∧
      s0C5.time_index + (-(([50, 60, 70] : List ℚ).length : ℤ) + 1) +
        ((([50, 60, 70] : List ℚ).length - 1 : ℕ) : ℤ) = s0C5.time_index :=
  (C5_backfill s0C5 [1, 1, 1] [50, 60, 70] rfl (Or.inl rfl)).1
    (by decide) (by decide) (by decide) (by decide) (by decide)

/-- Counterexample to C5 as stated: a sensor constructed at tick 2 backfilled
with a three-entry window commits three reported values — one of them for
tick 2, the current `time_index` itself, although only two ticks lie strictly
before it. -/
theorem C5_counterexample :
    ∃ (s sF : iCGMSensorState) (r : RngState),
      mkICGMSensor gauss0 sine0 piQ0 (0, 0) (some pC2) 10 2 none = Except.ok (s, r) ∧
      s.time_index = 2 ∧ s.sensor_bg_history = [] ∧
      backfill_and_calculate_sensor_data s [50, 60, 70] = (sF, none) ∧
      sF.sensor_bg_history.length = 3 := by
  have hmk := mkICGMSensor_ok gauss0 sine0 piQ0 (0, 0) pC2 10 2 none (by norm_num)
    (by norm_num) (by norm_num) (by decide)
  obtain ⟨dm, hdmspec, hdmlen⟩ := driftSpec_some sine0 piQ0 pC2 (Or.inr rfl)
  set s := mkSensorRecord pC2 10 2 none
    (sensorNoise gauss0 pC2, biasFactorOf pC2, driftSpec sine0 piQ0 pC2) with hs
  have hsdm : s.drift_multiplier = some dm := hdmspec
  have hdel : s.delay = 0 ∨ 5 ≤ s.delay := Or.inr (by decide)
  have hsb0 : s.sensor_bg_history = [] := rfl
  have hnl : s.noise.length = sensorLifetimeTicks := sensorNoise_length gauss0 pC2
  obtain ⟨sF, hbf, hsb, -⟩ := backfill_ok s dm [50, 60, 70] hsdm hdel (by decide)
    (by decide) (by decide) (by rw [hdmlen]; decide)
    (by rw [hnl]; decide)
  refine ⟨s, sF, _, hmk, rfl, hsb0, hbf, ?_⟩
  rw [hsb, hsb0]
  simp

/-- C6: the generator picks the fixed sensor delay from
`use_g6_accuracy_in_loss`: 5 when the stricter G6 reference-accuracy criterion
is enabled, 10 otherwise. -/
theorem C6_generator_delay (sc : Option (List ℚ)) (bs : ℕ) (bt bdt : String) (seed : ℕ) :
    (mkICGMSensorGenerator sc bs true bt bdt seed).delay = 5 ∧
    (mkICGMSensorGenerator sc bs false bt bdt seed).delay = 10 :=
  ⟨rfl, rfl⟩

/-- C7: every value returned by a successful `get_loop_inputs` is the raw
committed history value rounded to the nearest integer (Python half-to-even)
and clamped into `[40, 400]`; no returned value lies outside `[40, 400]`. -/
theorem C7_loop_inputs (s : iCGMSensorState) (dts : List (Option ℤ)) (vals : List ℤ)
    (h : get_loop_inputs s = Except.ok (dts, vals)) :
    dts = s.datetime_history ∧
    vals.length = s.sensor_bg_history.length ∧
    (∀ v ∈ vals, 40 ≤ v ∧ v ≤ 400) ∧
    (∀ i : ℕ, i < s.sensor_bg_history.length → ∀ raw : ℚ,
      s.sensor_bg_history.getD i none = some raw →
      vals.getD i 0 = max 40 (min 400 (pythonRound raw)) ∧
      |(pythonRound raw : ℚ) - raw| ≤ 1 / 2) := by
  rcases hl : loopBgValues s.sensor_bg_history with e | vs
  · rw [get_loop_inputs, hl] at h
    cases h
  · rw [get_loop_inputs, hl] at h
    cases h
    obtain ⟨hlen, hmem, hidx⟩ := loopBgValues_ok s.sensor_bg_history _ hl
    exact ⟨rfl, hlen, hmem,
      fun i hi raw hraw => ⟨hidx i hi raw hraw, pythonRound_nearest raw⟩⟩

/-- Witness for C7 at a concrete input: the history `[410, 10]` yields
`[400, 40]` — raw 410 clamps to 400, raw 10 clamps to 40. -/
theorem C7_loop_inputs_witness :
    ([] : List (Option ℤ)) = sC7.datetime_history ∧
    ([400, 40] : List ℤ).length = sC7.sensor_bg_history.length ∧
    (∀ v ∈ ([400, 40] : List ℤ), 40 ≤ v ∧ v ≤ 400) ∧
    (∀ i : ℕ, i < sC7.sensor_bg_history.length → ∀ raw : ℚ,
      sC7.sensor_bg_history.getD i none = some raw →
      ([400, 40] : List ℤ).getD i 0 = max 40 (min 400 (pythonRound raw)) ∧
      |(pythonRound raw : ℚ) - raw| ≤ 1 / 2) :=
  C7_loop_inputs sC7 [] [400, 40] (by
    have h410 : pythonRound 410 = 410 := by
      rw [show (410 : ℚ) = ((410 : ℤ) : ℚ) by norm_num, pythonRound_intCast]
    have h10 : pythonRound 10 = 10 := by
      rw [show (10 : ℚ) = ((10 : ℤ) : ℚ) by norm_num, pythonRound_intCast]
    have hh : sC7.sensor_bg_history = [some 410, some 10] := rfl
    have hl : loopBgValues [some 410, some 10] = Except.ok [400, 40] := by
      simp only [loopBgValues, h410, h10]
      rw [min_eq_left (by norm_num : (400 : ℤ) ≤ 410),
        max_eq_right (by norm_num : (40 : ℤ) ≤ 400),
        min_eq_right (by norm_num : (10 : ℤ) ≤ 400),
        max_eq_left (by norm_num : (10 : ℤ) ≤ 40)]
    rw [get_loop_inputs, hh, hl]
    rfl)

/-- C8: whenever `update` raises, the sensor state is left unchanged, so every
subsequent `update` on that sensor raises again — the temporal violation is
terminal. -/
theorem C8_update_terminal (s : iCGMSensorState) (t : Option ℤ)
    (h : (update s t).2.isSome = true) :
    (update s t).1 = s ∧
    ∀ t2 : Option ℤ, (update s t2).1 = s ∧ (update s t2).2.isSome = true := by
  rcases hv : validateTimeIndex s.sensor_life_days (s.time_index + 1) with e | u
  · exact ⟨by simp [update, hv], fun t2 => ⟨by simp [update, hv], by simp [update, hv]⟩⟩
  · exfalso
    simp [update, hv] at h

/-- Witness for C8 at a concrete input: the expired sensor `sExp` (one-day
lifetime, already at tick 287). -/
theorem C8_update_terminal_witness :
    (update sExp none).1 = sExp ∧
    ∀ t2 : Option ℤ, (update sExp t2).1 = sExp ∧ (update sExp t2).2.isSome = true :=
  C8_update_terminal sExp none (by decide)

/-- C9: `calculate_sensor_bias_properties` reseeds numpy's global stream from
the sensor's own `random_seed`, so two sensors constructed from identical
`SensorProperties` — whatever the incoming global stream states `g1`, `g2` —
are identical: identical noise arrays, identical drift-multiplier arrays, and
identical `get_bg` results for identical inputs. -/
theorem C9_reproducibility (gauss : ℕ → ℕ → ℚ) (sine : ℚ → ℚ) (piQ : ℚ)
    (g1 g2 : RngState) (p : SensorProperties) (life t : ℤ) (dt : Option ℤ)
    (v : ℚ) (h : Option (List ℚ)) (save : Bool) (off : ℤ) :
    mkICGMSensor gauss sine piQ g1 (some p) life t dt =
      mkICGMSensor gauss sine piQ g2 (some p) life t dt ∧
    (mkICGMSensor gauss sine piQ g1 (some p) life t dt).toOption.map
        (fun x => x.1.noise) =
      (mkICGMSensor gauss sine piQ g2 (some p) life t dt).toOption.map
        (fun x => x.1.noise) ∧
    (mkICGMSensor gauss sine piQ g1 (some p) life t dt).toOption.map
        (fun x => x.1.drift_multiplier) =
      (mkICGMSensor gauss sine piQ g2 (some p) life t dt).toOption.map
        (fun x => x.1.drift_multiplier) ∧
    (mkICGMSensor gauss sine piQ g1 (some p) life t dt).toOption.map
        (fun x => get_bg x.1 v h save off) =
      (mkICGMSensor gauss sine piQ g2 (some p) life t dt).toOption.map
        (fun x => get_bg x.1 v h save off) :=
  ⟨rfl, rfl, rfl, rfl⟩

/-- C10: constructing a sensor whose `bias_drift_type` is outside
`{"random", "linear", "none"}` succeeds without any configuration error, but
leaves `drift_multiplier` unset, so every subsequent `get_bg` call fails. -/
theorem C10_unknown_drift_type (gauss : ℕ → ℕ → ℚ) (sine : ℚ → ℚ) (piQ : ℚ)
    (g : RngState) (p : SensorProperties) (life t : ℤ) (dt : Option ℤ)
    (hna : p.bias_drift_type ≠ "random" ∧ p.bias_drift_type ≠ "linear" ∧
      p.bias_drift_type ≠ "none")
    (hlife : 0 < life) (ht : 0 ≤ t ∧ t ≤ life * 288 - 1) :
    ∃ (s : iCGMSensorState) (r : RngState),
      mkICGMSensor gauss sine piQ g (some p) life t dt = Except.ok (s, r) ∧
      s.drift_multiplier = none ∧
      ∀ (v : ℚ) (hh : Option (List ℚ)) (save : Bool) (off : ℤ),
        ∃ e, get_bg s v hh save off = Except.error e := by
  have hdrift : driftSpec sine piQ p = none := by
    rw [driftSpec, if_neg hna.1, if_neg hna.2.2]
  exact ⟨_, _, mkICGMSensor_ok gauss sine piQ g p life t dt hlife ht.1 ht.2 hna.2.1,
    hdrift, fun v hh save off => get_bg_drift_none _ hdrift v hh save off⟩

/-- Witness for C10 at a concrete input: properties `pFoo` with drift type
`"foo"`. -/
theorem C10_unknown_drift_type_witness :
    ∃ (s : iCGMSensorState) (r : RngState),
      mkICGMSensor gauss0 sine0 piQ0 (0, 0) (some pFoo) 10 0 none = Except.ok (s, r) ∧
      s.drift_multiplier = none ∧
      ∀ (v : ℚ) (hh : Option (List ℚ)) (save : Bool) (off : ℤ),
        ∃ e, get_bg s v hh save off = Except.error e :=
  C10_unknown_drift_type gauss0 sine0 piQ0 (0, 0) pFoo 10 0 none
    ⟨by decide, by decide, by decide⟩ (by norm_num) ⟨le_rfl, by norm_num⟩

end ICGM
